import Mathlib

/-!
Verification development for the Kaseketi veterinary clinic application.

The definitions below are a shallow embedding of the report-generation core
(the exam-system catalog, the exam state model, and the report renderer
`generateReport`), of the derived `completedSystems` view, of the
`handleNormalToggle` state update, and of the authentication helper
`sanitizeUser`.  JavaScript record objects are embedded as association lists
in key-insertion order; JavaScript falsiness checks on optional strings are
made explicit.
-/

namespace VetClinic

/-- The dynamic values that can be stored in a finding's field-value map.
Numbers are embedded as integers (no claim depends on fractional values). -/
inductive JSValue where
  | undef : JSValue
  | null : JSValue
  | bool : Bool → JSValue
  | num : Int → JSValue
  | str : String → JSValue
  | arr : List String → JSValue
deriving DecidableEq, Repr

/-- String conversion of a value as performed by a template literal. -/
def JSValue.display : JSValue → String
  | .undef => "undefined"
  | .null => "null"
  | .bool b => if b then "true" else "false"
  | .num n => toString n
  | .str s => s
  | .arr xs => String.intercalate "," xs

/-- The five field types of `SystemField.type` in shared/schema.ts. -/
inductive FieldType where
  | checkbox : FieldType
  | select : FieldType
  | multiselect : FieldType
  | numeric : FieldType
  | text : FieldType
deriving DecidableEq, Repr

/-- `SystemField` from shared/schema.ts. -/
structure SystemField where
  name : String
  label : String
  ftype : FieldType
  options : List String := []
  unit : Option String := none
  defaultValue : Option Bool := none
deriving DecidableEq, Repr

/-- `ExamSystemConfig` from shared/schema.ts. -/
structure ExamSystemConfig where
  name : String
  displayName : String
  displayOrder : Nat
  defaultNormalText : String
  fields : List SystemField
deriving DecidableEq, Repr

/-- The renderer-relevant projection of `Partial<Patient>`: the signalment
fields that `generateReport` reads.  `none` embeds an absent key. -/
structure PatientPartial where
  name : Option String := none
  species : Option String := none
  breed : Option String := none
  sex : Option String := none
  neuterStatus : Option String := none
  age : Option String := none
  weight : Option String := none
  clientName : Option String := none
deriving DecidableEq, Repr

/-- `ExamFindingState` from the exam store.  The `findings` field-value map is
an association list in key-insertion order, as a JavaScript object is
enumerated by `Object.entries`. -/
structure ExamFindingState where
  systemName : String := ""
  isNormal : Bool := true
  severity : Option String := none
  findings : List (String × JSValue) := []
  notes : String := ""
deriving DecidableEq, Repr

/-- `ExamState` from the exam store.  The two locale strings embed
`examDate.toLocaleDateString()` and `examDate.toLocaleTimeString()`, which are
functions of the stored date. -/
structure ExamState where
  patient : PatientPartial := {}
  examDateLocaleDate : String := ""
  examDateLocaleTime : String := ""
  examiner : String := ""
  presentingComplaint : String := ""
  planNotes : String := ""
  findings : List (String × ExamFindingState) := []
  completedSystems : List String := []
deriving DecidableEq, Repr

/-- The "general" entry of `examSystemsConfig` in shared/examConfig.ts. -/
def generalSystem : ExamSystemConfig :=
  { name := "general"
    displayName := "General & Vital Signs"
    displayOrder := 1
    defaultNormalText := "Patient is bright, alert, and responsive. Body condition score is appropriate. Vital signs within normal limits. No evidence of pain or distress. Adequately hydrated."
    fields :=
      [ { name := "attitude", label := "Attitude", ftype := .select,
          options := ["Bright, alert, responsive", "Quiet", "Depressed", "Anxious", "Aggressive"] },
        { name := "bcs", label := "Body Condition Score", ftype := .select,
          options := ["1/9 - Emaciated", "2/9", "3/9 - Thin", "4/9", "5/9 - Ideal", "6/9", "7/9 - Overweight", "8/9", "9/9 - Obese"] },
        { name := "temperature", label := "Temperature", ftype := .numeric, unit := some "°F" },
        { name := "heartRate", label := "Heart Rate", ftype := .numeric, unit := some "bpm" },
        { name := "respiratoryRate", label := "Respiratory Rate", ftype := .numeric, unit := some "breaths/min" },
        { name := "hydration", label := "Hydration Status", ftype := .select,
          options := ["Normal", "Mildly dehydrated (5%)", "Moderately dehydrated (7-8%)", "Severely dehydrated (10%+)"] },
        { name := "painScore", label := "Pain Score", ftype := .select,
          options := ["0 - No pain", "1 - Mild", "2 - Moderate", "3 - Severe", "4 - Excruciating"] },
        { name := "mmColor", label := "Mucous Membrane Color", ftype := .select,
          options := ["Pink", "Pale", "Icteric", "Cyanotic", "Injected", "Muddy"] },
        { name := "crt", label := "Capillary Refill Time", ftype := .select,
          options := ["< 2 seconds (normal)", "2-3 seconds (prolonged)", "> 3 seconds (severely prolonged)"] } ] }

/-- The "skin" entry of `examSystemsConfig`. -/
def skinSystem : ExamSystemConfig :=
  { name := "skin"
    displayName := "Skin & Coat"
    displayOrder := 2
    defaultNormalText := "Skin is supple with no evidence of masses, lesions, or parasites. Coat is clean, well-groomed, and appropriate for breed."
    fields :=
      [ { name := "coatCondition", label := "Coat Condition", ftype := .select,
          options := ["Normal", "Dry", "Oily", "Matted", "Thin/Alopecic"] },
        { name := "skinTurgor", label := "Skin Turgor", ftype := .select,
          options := ["Normal", "Reduced"] },
        { name := "lesions", label := "Lesions Present", ftype := .checkbox },
        { name := "lesionType", label := "Lesion Type", ftype := .multiselect,
          options := ["Papules", "Pustules", "Crusts", "Erosions", "Ulcers", "Nodules", "Masses"] },
        { name := "parasites", label := "External Parasites", ftype := .multiselect,
          options := ["None observed", "Fleas", "Ticks", "Mites (suspected)", "Lice"] },
        { name := "pruritus", label := "Pruritus", ftype := .select,
          options := ["None", "Mild", "Moderate", "Severe"] } ] }

/-- The "musculoskeletal" entry of `examSystemsConfig`. -/
def musculoskeletalSystem : ExamSystemConfig :=
  { name := "musculoskeletal"
    displayName := "Musculoskeletal"
    displayOrder := 3
    defaultNormalText := "Gait is normal and symmetric. No lameness observed. All joints have full range of motion without pain or crepitus. Muscles are symmetric and well-developed."
    fields :=
      [ { name := "gait", label := "Gait", ftype := .select,
          options := ["Normal", "Lameness - Mild", "Lameness - Moderate", "Lameness - Severe", "Non-weight bearing"] },
        { name := "lamenesLocation", label := "Lameness Location", ftype := .multiselect,
          options := ["Left forelimb", "Right forelimb", "Left hindlimb", "Right hindlimb", "Multiple limbs"] },
        { name := "muscleSymmetry", label := "Muscle Symmetry", ftype := .select,
          options := ["Symmetric", "Atrophy present"] },
        { name := "jointPain", label := "Joint Pain", ftype := .checkbox },
        { name := "crepitus", label := "Crepitus", ftype := .checkbox },
        { name := "affectedJoints", label := "Affected Joints", ftype := .multiselect,
          options := ["Shoulder", "Elbow", "Carpus", "Hip", "Stifle", "Tarsus", "Spine"] } ] }

/-- The "neurologic" entry of `examSystemsConfig`. -/
def neurologicSystem : ExamSystemConfig :=
  { name := "neurologic"
    displayName := "Neurologic"
    displayOrder := 4
    defaultNormalText := "Mentation is normal. Cranial nerve examination unremarkable. Proprioception intact in all four limbs. Spinal reflexes normal. No evidence of ataxia or paresis."
    fields :=
      [ { name := "mentation", label := "Mentation", ftype := .select,
          options := ["Normal", "Obtunded", "Stuporous", "Comatose"] },
        { name := "cranialNerves", label := "Cranial Nerve Exam", ftype := .select,
          options := ["Normal", "Abnormalities detected"] },
        { name := "proprioception", label := "Proprioception", ftype := .select,
          options := ["Normal all limbs", "Delayed", "Absent"] },
        { name := "ataxia", label := "Ataxia", ftype := .select,
          options := ["None", "Vestibular", "Cerebellar", "Proprioceptive"] },
        { name := "paresis", label := "Paresis/Paralysis", ftype := .select,
          options := ["None", "Monoparesis", "Paraparesis", "Tetraparesis", "Hemiparesis"] },
        { name := "seizures", label := "Seizure History", ftype := .checkbox } ] }

/-- The "eyes" entry of `examSystemsConfig`. -/
def eyesSystem : ExamSystemConfig :=
  { name := "eyes"
    displayName := "Eyes"
    displayOrder := 5
    defaultNormalText := "Both eyes are clear and bright. Pupils are equal and responsive to light. No evidence of discharge, redness, or opacity. Menace response and PLR intact bilaterally."
    fields :=
      [ { name := "discharge", label := "Ocular Discharge", ftype := .select,
          options := ["None", "Serous", "Mucoid", "Mucopurulent"] },
        { name := "redness", label := "Conjunctival Redness", ftype := .select,
          options := ["None", "Mild", "Moderate", "Severe"] },
        { name := "cornealClarity", label := "Corneal Clarity", ftype := .select,
          options := ["Clear", "Edema present", "Ulcer suspected", "Pigmentation", "Scarring"] },
        { name := "plr", label := "PLR", ftype := .select,
          options := ["Normal bilateral", "Sluggish", "Absent"] },
        { name := "menaceResponse", label := "Menace Response", ftype := .select,
          options := ["Intact bilateral", "Reduced", "Absent"] },
        { name := "lensOpacity", label := "Lens Opacity", ftype := .select,
          options := ["Clear", "Nuclear sclerosis", "Cataract - incipient", "Cataract - mature"] } ] }

/-- The "ears" entry of `examSystemsConfig`. -/
def earsSystem : ExamSystemConfig :=
  { name := "ears"
    displayName := "Ears"
    displayOrder := 6
    defaultNormalText := "Pinnae are healthy with no lesions. External ear canals are clean with minimal cerumen. Tympanic membranes intact bilaterally. No evidence of otitis."
    fields :=
      [ { name := "pinnaCondition", label := "Pinna Condition", ftype := .select,
          options := ["Normal", "Erythema", "Thickening", "Lesions present", "Aural hematoma"] },
        { name := "canalCondition", label := "Canal Condition", ftype := .select,
          options := ["Clean/Normal", "Mild debris", "Moderate debris", "Stenotic", "Occluded"] },
        { name := "discharge", label := "Otic Discharge", ftype := .select,
          options := ["None", "Ceruminous", "Purulent", "Hemorrhagic"] },
        { name := "odor", label := "Odor", ftype := .select,
          options := ["None", "Present"] },
        { name := "pain", label := "Pain on Manipulation", ftype := .checkbox },
        { name := "affectedEar", label := "Affected Ear", ftype := .multiselect,
          options := ["Left", "Right", "Bilateral"] } ] }

/-- The "oral" entry of `examSystemsConfig`. -/
def oralSystem : ExamSystemConfig :=
  { name := "oral"
    displayName := "Oral Cavity & Teeth"
    displayOrder := 7
    defaultNormalText := "Oral examination reveals healthy gingiva and mucous membranes. Teeth are clean with no evidence of calculus, fractures, or periodontal disease. No oral masses detected."
    fields :=
      [ { name := "dentalCalculus", label := "Dental Calculus", ftype := .select,
          options := ["None", "Grade 1 - Mild", "Grade 2 - Moderate", "Grade 3 - Severe"] },
        { name := "gingivitis", label := "Gingivitis", ftype := .select,
          options := ["None", "Mild", "Moderate", "Severe"] },
        { name := "periodontalDisease", label := "Periodontal Disease", ftype := .checkbox },
        { name := "fracturedTeeth", label := "Fractured Teeth", ftype := .checkbox },
        { name := "missingTeeth", label := "Missing Teeth", ftype := .checkbox },
        { name := "oralMasses", label := "Oral Masses", ftype := .checkbox },
        { name := "tongueNormal", label := "Tongue Normal", ftype := .checkbox, defaultValue := some true } ] }

/-- The "cardiovascular" entry of `examSystemsConfig`. -/
def cardiovascularSystem : ExamSystemConfig :=
  { name := "cardiovascular"
    displayName := "Cardiovascular"
    displayOrder := 8
    defaultNormalText := "Heart rate and rhythm are normal. No murmurs, gallops, or arrhythmias detected on auscultation. Peripheral pulses are strong and synchronous. No jugular distension."
    fields :=
      [ { name := "heartRhythm", label := "Heart Rhythm", ftype := .select,
          options := ["Regular", "Regularly irregular", "Irregularly irregular", "Bradycardia", "Tachycardia"] },
        { name := "murmur", label := "Heart Murmur", ftype := .checkbox },
        { name := "murmurGrade", label := "Murmur Grade", ftype := .select,
          options := ["I/VI", "II/VI", "III/VI", "IV/VI", "V/VI", "VI/VI"] },
        { name := "murmurLocation", label := "Murmur PMI", ftype := .select,
          options := ["Left apex", "Left base", "Right side", "Both sides"] },
        { name := "pulseQuality", label := "Pulse Quality", ftype := .select,
          options := ["Strong/synchronous", "Weak", "Bounding", "Pulse deficits"] },
        { name := "jugularDistension", label := "Jugular Distension", ftype := .checkbox },
        { name := "gallop", label := "Gallop Rhythm", ftype := .checkbox } ] }

/-- The "respiratory" entry of `examSystemsConfig`. -/
def respiratorySystem : ExamSystemConfig :=
  { name := "respiratory"
    displayName := "Respiratory"
    displayOrder := 9
    defaultNormalText := "Respiratory rate and effort are normal. Lung sounds are clear bilaterally. No nasal discharge, coughing, or evidence of respiratory distress."
    fields :=
      [ { name := "effort", label := "Respiratory Effort", ftype := .select,
          options := ["Normal", "Increased", "Labored", "Dyspneic"] },
        { name := "lungSounds", label := "Lung Sounds", ftype := .select,
          options := ["Clear bilaterally", "Harsh/Increased", "Crackles", "Wheezes", "Decreased/Absent"] },
        { name := "nasalDischarge", label := "Nasal Discharge", ftype := .select,
          options := ["None", "Serous", "Mucoid", "Mucopurulent", "Hemorrhagic"] },
        { name := "coughing", label := "Cough", ftype := .select,
          options := ["None", "Dry/non-productive", "Productive", "Paroxysmal"] },
        { name := "tracheaPalpation", label := "Tracheal Sensitivity", ftype := .select,
          options := ["Normal", "Cough induced"] },
        { name := "stertor", label := "Stertor/Stridor", ftype := .checkbox } ] }

/-- The "gastrointestinal" entry of `examSystemsConfig`. -/
def gastrointestinalSystem : ExamSystemConfig :=
  { name := "gastrointestinal"
    displayName := "Gastrointestinal"
    displayOrder := 10
    defaultNormalText := "Abdomen is soft, non-painful, and without organomegaly or palpable masses. No vomiting or diarrhea reported. Anal region is clean and normal."
    fields :=
      [ { name := "abdominalPalpation", label := "Abdominal Palpation", ftype := .select,
          options := ["Soft, non-painful", "Tense", "Painful", "Distended"] },
        { name := "organomegaly", label := "Organomegaly", ftype := .multiselect,
          options := ["None", "Hepatomegaly", "Splenomegaly", "Renomegaly"] },
        { name := "masses", label := "Abdominal Masses", ftype := .checkbox },
        { name := "fluidWave", label := "Fluid Wave", ftype := .checkbox },
        { name := "vomiting", label := "Vomiting History", ftype := .select,
          options := ["None", "Occasional", "Frequent", "Projectile"] },
        { name := "stoolConsistency", label := "Stool Consistency", ftype := .select,
          options := ["Normal", "Soft", "Diarrhea", "Bloody", "Mucoid", "Constipated"] },
        { name := "analRegion", label := "Anal/Perineal Region", ftype := .select,
          options := ["Normal", "Distended anal sacs", "Perineal hernia", "Masses"] } ] }

/-- The "urogenital" entry of `examSystemsConfig`. -/
def urogenitalSystem : ExamSystemConfig :=
  { name := "urogenital"
    displayName := "Urogenital"
    displayOrder := 11
    defaultNormalText := "Bladder is normal size and easily expressible. Kidneys are symmetric and non-painful. External genitalia are normal. No abnormal discharge."
    fields :=
      [ { name := "bladder", label := "Bladder", ftype := .select,
          options := ["Normal/small", "Distended", "Thickened wall", "Not palpable"] },
        { name := "kidneys", label := "Kidneys", ftype := .select,
          options := ["Normal size and shape", "Enlarged", "Small", "Irregular", "Painful"] },
        { name := "prostate", label := "Prostate (Males)", ftype := .select,
          options := ["Normal", "Enlarged", "Painful", "Asymmetric", "N/A"] },
        { name := "vulva", label := "Vulva (Females)", ftype := .select,
          options := ["Normal", "Discharge present", "Swollen", "N/A"] },
        { name := "mammaryGlands", label := "Mammary Glands", ftype := .select,
          options := ["Normal", "Masses present", "Galactorrhea", "N/A"] },
        { name := "testicles", label := "Testicles (Intact Males)", ftype := .select,
          options := ["Both descended, normal", "Cryptorchid", "Masses", "Asymmetric", "N/A"] },
        { name := "urinarySymptoms", label := "Urinary Symptoms", ftype := .multiselect,
          options := ["None", "Polyuria", "Pollakiuria", "Stranguria", "Hematuria"] } ] }

/-- The "lymphnodes" entry of `examSystemsConfig`. -/
def lymphnodesSystem : ExamSystemConfig :=
  { name := "lymphnodes"
    displayName := "Lymph Nodes"
    displayOrder := 12
    defaultNormalText := "All peripheral lymph nodes are normal in size and consistency. No lymphadenopathy detected."
    fields :=
      [ { name := "submandibular", label := "Submandibular", ftype := .select,
          options := ["Normal", "Enlarged", "Painful"] },
        { name := "prescapular", label := "Prescapular", ftype := .select,
          options := ["Normal", "Enlarged", "Painful"] },
        { name := "axillary", label := "Axillary", ftype := .select,
          options := ["Normal", "Enlarged", "Painful", "Not palpable"] },
        { name := "inguinal", label := "Inguinal", ftype := .select,
          options := ["Normal", "Enlarged", "Painful", "Not palpable"] },
        { name := "popliteal", label := "Popliteal", ftype := .select,
          options := ["Normal", "Enlarged", "Painful"] },
        { name := "generalizedLymphadenopathy", label := "Generalized Lymphadenopathy", ftype := .checkbox } ] }

/-- The "endocrine" entry of `examSystemsConfig`. -/
def endocrineSystem : ExamSystemConfig :=
  { name := "endocrine"
    displayName := "Endocrine/Metabolic"
    displayOrder := 13
    defaultNormalText := "No clinical signs suggestive of endocrine disease. No polyuria, polydipsia, or unexplained weight changes reported."
    fields :=
      [ { name := "pupd", label := "PU/PD", ftype := .checkbox },
        { name := "polyphagia", label := "Polyphagia", ftype := .checkbox },
        { name := "weightChange", label := "Weight Change", ftype := .select,
          options := ["Stable", "Weight loss", "Weight gain"] },
        { name := "hairCoatChanges", label := "Hair Coat Changes", ftype := .select,
          options := ["None", "Bilaterally symmetric alopecia", "Thin coat", "Poor regrowth"] },
        { name := "thyroid", label := "Thyroid Palpation (Cats)", ftype := .select,
          options := ["Not palpable", "Palpable/Nodule", "N/A"] },
        { name := "potBelly", label := "Pot-bellied Appearance", ftype := .checkbox },
        { name := "muscleWasting", label := "Muscle Wasting", ftype := .checkbox } ] }

/-- `examSystemsConfig` from shared/examConfig.ts: the fixed ordered catalog. -/
def examSystemsConfig : List ExamSystemConfig :=
  [generalSystem, skinSystem, musculoskeletalSystem, neurologicSystem, eyesSystem,
   earsSystem, oralSystem, cardiovascularSystem, respiratorySystem,
   gastrointestinalSystem, urogenitalSystem, lymphnodesSystem, endocrineSystem]

/-- Property access `record[key]` on a JavaScript object embedded as an
association list: the first binding of the key, if any. -/
def findRecord {α : Type} : List (String × α) → String → Option α
  | [], _ => none
  | (k, v) :: rest, key => if k = key then some v else findRecord rest key

/-- JavaScript truthiness of an optional string (`undefined` and `""` are
falsy), as tested by `if (finding.severity)` and by
`finding.severity && finding.severity !== ""`. -/
def strTruthy : Option String → Bool
  | none => false
  | some s => s ≠ ""

/-- `s || d` on a JavaScript string: the default replaces the empty string. -/
def jsOrStr (s d : String) : String := if s ≠ "" then s else d

/-- `o || d` on a possibly-absent JavaScript string. -/
def jsOrOpt (o : Option String) (d : String) : String :=
  match o with
  | some s => jsOrStr s d
  | none => d

/-- One entry of the field-value loop in `generateReport` (password.ts
lines 731-745): looks up the field definition by name, applies the
presence guard `value !== undefined && value !== null && value !== "" &&
value !== false`, and formats per shape. -/
def formatFieldEntry (cfg : ExamSystemConfig) (fieldName : String) (v : JSValue) : Option String :=
  match cfg.fields.find? (fun fc => fc.name = fieldName) with
  | none => none
  | some fc =>
    if v = .undef ∨ v = .null ∨ v = .str "" ∨ v = .bool false then none
    else
      match v with
      | .arr xs =>
          if 0 < xs.length then some (fc.label ++ ": " ++ String.intercalate ", " xs) else none
      | .bool _ => some (fc.label ++ ": Yes")
      | v' =>
          let displayValue :=
            match fc.unit with
            | some u => if u ≠ "" then v'.display ++ " " ++ u else v'.display
            | none => v'.display
          some (fc.label ++ ": " ++ displayValue)

/-- The `detailLines` array built for an abnormal finding, in push order:
severity line, recognized field values in map-entry order, notes line. -/
def detailLines (cfg : ExamSystemConfig) (f : ExamFindingState) : List String :=
  (if strTruthy f.severity then ["Severity: " ++ f.severity.getD ""] else [])
  ++ f.findings.filterMap (fun p => formatFieldEntry cfg p.1 p.2)
  ++ (if f.notes ≠ "" then ["Notes: " ++ f.notes] else [])

/-- The single body line a system section pushes after its subheading. -/
def sectionBody (cfg : ExamSystemConfig) (f : ExamFindingState) : String :=
  if f.isNormal then cfg.defaultNormalText
  else
    let dl := detailLines cfg f
    if 0 < dl.length then String.intercalate ". " dl ++ "."
    else "Abnormalities noted - see additional notes."

/-- The Objective pass of `generateReport` (password.ts lines 714-757): a
single traversal of the catalog that accumulates both the section lines and
the `abnormalFindings` summary array by pushing onto the accumulators. -/
def objectivePassAux (catalog : List ExamSystemConfig)
    (findings : List (String × ExamFindingState))
    (acc : List String × List String) : List String × List String :=
  match catalog with
  | [] => acc
  | cfg :: rest =>
    match findRecord findings cfg.name with
    | none => objectivePassAux rest findings acc
    | some f =>
      let newLines := acc.1 ++ ["", cfg.displayName.toUpper, sectionBody cfg f]
      let newAbnormal :=
        if f.isNormal = false ∧ strTruthy f.severity then
          acc.2 ++ [cfg.displayName ++ ": " ++ f.severity.getD "" ++ " abnormality"]
        else acc.2
      objectivePassAux rest findings (newLines, newAbnormal)

/-- The Objective pass, started from empty accumulators. -/
def objectivePass (catalog : List ExamSystemConfig)
    (findings : List (String × ExamFindingState)) : List String × List String :=
  objectivePassAux catalog findings ([], [])

/-- The horizontal rule under each section banner: 63 light box-drawing
dashes. -/
def dashLine : String := String.mk (List.replicate 63 '─')

/-- The double rule used at the top and bottom of the report: 63 double
box-drawing dashes. -/
def barLine : String := String.mk (List.replicate 63 '═')

/-- The Assessment section body (password.ts lines 762-769). -/
def assessmentLines (abnormalFindings : List String) : List String :=
  if 0 < abnormalFindings.length then
    "Key abnormal findings:"
      :: abnormalFindings.enum.map (fun p => "  " ++ toString (p.1 + 1) ++ ". " ++ p.2)
  else ["No significant abnormalities detected on physical examination."]

/-- The lines pushed by `generateReport` before the Objective sections: the
banner, patient information, Subjective section, and Objective heading. -/
def reportHeaderLines (state : ExamState) (clinicName : String) : List String :=
  [barLine,
   "           " ++ clinicName.toUpper,
   "              PHYSICAL EXAMINATION REPORT",
   barLine,
   "",
   "PATIENT INFORMATION",
   dashLine,
   "Patient Name: " ++ jsOrOpt state.patient.name "Not specified",
   "Species: " ++ jsOrOpt state.patient.species "Not specified",
   "Breed: " ++ jsOrOpt state.patient.breed "Not specified",
   "Sex: " ++ jsOrOpt state.patient.sex "Not specified" ++ " (" ++ jsOrOpt state.patient.neuterStatus "Unknown" ++ ")",
   "Age: " ++ jsOrOpt state.patient.age "Not specified",
   "Weight: " ++ jsOrOpt state.patient.weight "Not specified",
   "Client: " ++ jsOrOpt state.patient.clientName "Not specified",
   "Exam Date: " ++ state.examDateLocaleDate ++ " " ++ state.examDateLocaleTime,
   "Examining Veterinarian: " ++ jsOrStr state.examiner "Not specified",
   "",
   "SUBJECTIVE",
   dashLine,
   "Presenting Complaint: " ++ jsOrStr state.presentingComplaint "None provided",
   "",
   "OBJECTIVE - PHYSICAL EXAMINATION",
   dashLine]

/-- The lines pushed by `generateReport` after the Objective sections and
before the footer: the Assessment section and the Plan section. -/
def reportMiddleLines (state : ExamState) (abnormalFindings : List String) :
    List String :=
  ["", "ASSESSMENT", dashLine]
  ++ assessmentLines abnormalFindings
  ++ ["", "PLAN", dashLine, jsOrStr state.planNotes "To be determined.", "", barLine]

/-- `generateReport` from the exam store, as the list of lines pushed in
order.  `now` embeds the wall-clock string `new Date().toLocaleString()` of
the footer, the only input not taken from the arguments. -/
def generateReportLines (state : ExamState) (clinicName : String) (now : String) :
    List String :=
  let op := objectivePass examSystemsConfig state.findings
  reportHeaderLines state clinicName
  ++ op.1
  ++ reportMiddleLines state op.2
  ++ ["Report generated: " ++ now, barLine]

/-- `generateReport` as the final joined string. -/
def generateReport (state : ExamState) (clinicName : String) (now : String) : String :=
  String.intercalate "\n" (generateReportLines state clinicName now)

/-- Declarative view of one Objective subsection: the catalog entries that
produce a subsection, paired with the finding that produced it. -/
def objectiveSubsections (findings : List (String × ExamFindingState)) :
    List (ExamSystemConfig × ExamFindingState) :=
  examSystemsConfig.filterMap
    (fun cfg => (findRecord findings cfg.name).map (fun f => (cfg, f)))

/-- Declarative view of the `abnormalFindings` entry a catalog system
contributes: present exactly when a finding exists, is abnormal, and has a
truthy severity. -/
def abnormalEntryOf (findings : List (String × ExamFindingState))
    (cfg : ExamSystemConfig) : Option String :=
  match findRecord findings cfg.name with
  | none => none
  | some f =>
    if f.isNormal = false ∧ strTruthy f.severity then
      some (cfg.displayName ++ ": " ++ f.severity.getD "" ++ " abnormality")
    else none

/-- Restricts a field-value map to the field names declared on a system. -/
def restrictFields (cfg : ExamSystemConfig) (f : ExamFindingState) : ExamFindingState :=
  { f with findings := f.findings.filter (fun q => cfg.fields.any (fun fc => fc.name = q.1)) }

/-- Drops the field values of a finding that its system (looked up by map
key in the catalog) does not declare; identity for non-catalog keys. -/
def pruneFindingAt (k : String) (f : ExamFindingState) : ExamFindingState :=
  match examSystemsConfig.find? (fun cfg => cfg.name = k) with
  | none => f
  | some cfg => restrictFields cfg f

/-- Removes from an exam state every finding whose system is not in the
catalog, and from each remaining finding every field value whose name is not
among its system's field definitions. -/
def pruneState (st : ExamState) : ExamState :=
  { st with
    findings :=
      (st.findings.filter
          (fun p => examSystemsConfig.any (fun cfg => cfg.name = p.1))).map
        (fun p => (p.1, pruneFindingAt p.1 p.2)) }

/-- Modelled from the spec words of claim C2 as frozen: formats one declared
field from its recorded value, per declared type shape. -/
def claimFormatValue (fc : SystemField) (v : JSValue) : Option String :=
  match v with
  | .undef => none
  | .null => none
  | .bool b => if b then some (fc.label ++ ": Yes") else none
  | .arr xs => if xs = [] then none else some (fc.label ++ ": " ++ String.intercalate ", " xs)
  | .str s =>
      if s = "" then none
      else some (fc.label ++ ": " ++ s ++
        (match fc.unit with
         | some u => if u = "" then "" else " " ++ u
         | none => ""))
  | .num n =>
      some (fc.label ++ ": " ++ toString n ++
        (match fc.unit with
         | some u => if u = "" then "" else " " ++ u
         | none => ""))

/-- Modelled from the spec words of claim C2 as frozen: the detail lines for
an abnormal finding, iterating the fields IN THE DECLARED FIELD ORDER of the
system and looking each recorded value up. -/
def claimDeclaredOrderDetailLines (cfg : ExamSystemConfig) (f : ExamFindingState) :
    List String :=
  (match f.severity with
   | some s => if s = "" then [] else ["Severity: " ++ s]
   | none => [])
  ++ cfg.fields.filterMap
      (fun fc =>
        match findRecord f.findings fc.name with
        | none => none
        | some v => claimFormatValue fc v)
  ++ (if f.notes = "" then [] else ["Notes: " ++ f.notes])

/-- Modelled from the spec words of claim C2 as frozen: the body sentence for
an abnormal finding, under the declared-field-order reading. -/
def claimDeclaredOrderBody (cfg : ExamSystemConfig) (f : ExamFindingState) : String :=
  let dl := claimDeclaredOrderDetailLines cfg f
  if dl = [] then "Abnormalities noted - see additional notes."
  else String.intercalate ". " dl ++ "."

/-- The amended reading of claim C2: the same formatting rules, but iterating
the recorded field values in map-entry (insertion) order, each looked up in
the declared field definitions. -/
def amendedEntryOrderDetailLines (cfg : ExamSystemConfig) (f : ExamFindingState) :
    List String :=
  (match f.severity with
   | some s => if s = "" then [] else ["Severity: " ++ s]
   | none => [])
  ++ f.findings.filterMap
      (fun p =>
        match cfg.fields.find? (fun fc => fc.name = p.1) with
        | none => none
        | some fc => claimFormatValue fc p.2)
  ++ (if f.notes = "" then [] else ["Notes: " ++ f.notes])

/-- Body sentence of an abnormal finding under the amended reading of C2. -/
def amendedEntryOrderBody (cfg : ExamSystemConfig) (f : ExamFindingState) : String :=
  let dl := amendedEntryOrderDetailLines cfg f
  if dl = [] then "Abnormalities noted - see additional notes."
  else String.intercalate ". " dl ++ "."

/-- A concrete abnormal skin finding whose field values were recorded in the
opposite of the declared field order: `pruritus` first, then `lesions`. -/
def entryOrderFinding : ExamFindingState :=
  { systemName := "skin"
    isNormal := false
    severity := none
    findings := [("pruritus", .str "Severe"), ("lesions", .bool true)]
    notes := "" }

/-- An exam state holding only the finding `entryOrderFinding`. -/
def entryOrderState : ExamState :=
  { findings := [("skin", entryOrderFinding)] }

/-- An exam state with every component at its default; in particular every
patient field is unset. -/
def allUnsetState : ExamState := {}

/-- A concrete severe cardiovascular finding. -/
def severeCardioFinding : ExamFindingState :=
  { systemName := "cardiovascular"
    isNormal := false
    severity := some "Severe"
    findings := [("murmur", .bool true)]
    notes := "" }

/-- An exam state holding only the severe cardiovascular finding. -/
def severeCardioState : ExamState :=
  { findings := [("cardiovascular", severeCardioFinding)] }

/-- The spec scenario skin finding: abnormal, Moderate, lesions and pruritus
recorded. -/
def scenarioSkinFinding : ExamFindingState :=
  { systemName := "skin"
    isNormal := false
    severity := some "Moderate"
    findings := [("lesions", .bool true), ("pruritus", .str "Severe")]
    notes := "" }

/-- A normal finding carrying stray field values and a stray severity. -/
def strayNormalFinding : ExamFindingState :=
  { systemName := "skin"
    isNormal := true
    severity := some "Severe"
    findings := [("lesions", .bool true), ("bogusField", .str "x")]
    notes := "stray" }

/-- An abnormal finding documented only via notes and field values, with no
severity. -/
def abnormalNoSeverityFinding : ExamFindingState :=
  { systemName := "skin"
    isNormal := false
    severity := none
    findings := [("lesions", .bool true)]
    notes := "documented" }

/-- A two-system findings map: skin abnormal without severity, general normal. -/
def completedProbeFindings : List (String × ExamFindingState) :=
  [("skin", abnormalNoSeverityFinding),
   ("general", { systemName := "general", isNormal := true })]

/-- `handleNormalToggle` from SystemCard.tsx (lines 28-37): the state update
applied to a finding when the Normal/Abnormal toggle is pressed. -/
def handleNormalToggle (finding : ExamFindingState) (isNormal : Bool) : ExamFindingState :=
  { finding with
    isNormal := isNormal
    severity := if isNormal then none else finding.severity }

/-- The derived `completedSystems` set of the new-exam page, as the list of
keys passing the filter `finding.isNormal || (finding.severity &&
finding.severity !== "")` in map-entry order. -/
def completedSystemsOf (findings : List (String × ExamFindingState)) : List String :=
  (findings.filter (fun p => p.2.isNormal || strTruthy p.2.severity)).map Prod.fst

/-- `User` from shared/schema.ts (the users table row).  Timestamps are
embedded as strings. -/
structure User where
  id : String
  username : String
  email : String
  password : String
  firstName : String
  lastName : String
  role : String
  isActive : Bool
  createdAt : String
  updatedAt : String
deriving DecidableEq, Repr

/-- `SafeUser` from shared/schema.ts: `Omit<User, "password">`. -/
structure SafeUser where
  id : String
  username : String
  email : String
  firstName : String
  lastName : String
  role : String
  isActive : Bool
  createdAt : String
  updatedAt : String
deriving DecidableEq, Repr

/-- `sanitizeUser` from the auth module: rest-destructuring away the
`password` property and keeping every other property. -/
def sanitizeUser (u : User) : SafeUser :=
  { id := u.id
    username := u.username
    email := u.email
    firstName := u.firstName
    lastName := u.lastName
    role := u.role
    isActive := u.isActive
    createdAt := u.createdAt
    updatedAt := u.updatedAt }

/-! ### Structural lemmas about the renderer -/

/-- The single-pass Objective traversal, from arbitrary accumulators, equals
its declarative decomposition: section lines via the subsection pairs, and
abnormal-summary entries via `abnormalEntryOf`. -/
theorem objectivePassAux_eq (catalog : List ExamSystemConfig)
    (fs : List (String × ExamFindingState)) (acc : List String × List String) :
    objectivePassAux catalog fs acc =
      (acc.1 ++ (catalog.filterMap
          (fun cfg => (findRecord fs cfg.name).map (fun f => (cfg, f)))).flatMap
          (fun p => ["", p.1.displayName.toUpper, sectionBody p.1 p.2]),
       acc.2 ++ catalog.filterMap (abnormalEntryOf fs)) := by
  induction catalog generalizing acc with
  | nil => simp [objectivePassAux]
  | cons cfg rest ih =>
    cases h : findRecord fs cfg.name with
    | none =>
      simp only [objectivePassAux, h, List.filterMap_cons, abnormalEntryOf]
      simp [ih]
    | some f =>
      by_cases hab : f.isNormal = false ∧ strTruthy f.severity
      · simp only [objectivePassAux, h, List.filterMap_cons, abnormalEntryOf,
          hab, if_true, and_self]
        rw [ih]
        simp [hab, List.append_assoc]
      · simp only [objectivePassAux, h, List.filterMap_cons, abnormalEntryOf,
          hab, if_false]
        rw [ih]
        simp [hab, List.append_assoc]

/-- `objectivePass` from empty accumulators, declaratively. -/
theorem objectivePass_eq (catalog : List ExamSystemConfig)
    (fs : List (String × ExamFindingState)) :
    objectivePass catalog fs =
      ((catalog.filterMap
          (fun cfg => (findRecord fs cfg.name).map (fun f => (cfg, f)))).flatMap
          (fun p => ["", p.1.displayName.toUpper, sectionBody p.1 p.2]),
       catalog.filterMap (abnormalEntryOf fs)) := by
  simpa [objectivePass] using objectivePassAux_eq catalog fs ([], [])

/-- The first projections of the subsection pairs are exactly the catalog
entries for which a finding record exists, in catalog order. -/
theorem filterMap_pairs_map_fst (catalog : List ExamSystemConfig)
    (fs : List (String × ExamFindingState)) :
    (catalog.filterMap
        (fun cfg => (findRecord fs cfg.name).map (fun f => (cfg, f)))).map Prod.fst
      = catalog.filter (fun cfg => (findRecord fs cfg.name).isSome) := by
  induction catalog with
  | nil => rfl
  | cons cfg rest ih =>
    cases h : findRecord fs cfg.name with
    | none => simp [List.filterMap_cons, List.filter_cons, h, ih]
    | some f => simp [List.filterMap_cons, List.filter_cons, h, ih]

/-- The subsection pairs form a sublist of the catalog in the first
component. -/
theorem filterMap_pairs_sublist (catalog : List ExamSystemConfig)
    (fs : List (String × ExamFindingState)) :
    ((catalog.filterMap
        (fun cfg => (findRecord fs cfg.name).map (fun f => (cfg, f)))).map
        Prod.fst).Sublist catalog := by
  rw [filterMap_pairs_map_fst]
  exact List.filter_sublist catalog

/-- The `displayOrder` values of the catalog are strictly increasing. -/
theorem examSystemsConfig_displayOrder_sorted :
    (examSystemsConfig.map (fun cfg => cfg.displayOrder)).Pairwise (· < ·) := by
  decide

/-! ### Claim theorems: exam state model and authentication -/

/-- Claim C8: toggling `isNormal` to `true` clears `severity`; toggling to
`false` keeps the prior `severity`; and in both directions the system name,
field values, and notes of the finding are unchanged while `isNormal`
becomes the toggled value. -/
theorem handleNormalToggle_frame (f : ExamFindingState) (b : Bool) :
    (handleNormalToggle f true).severity = none
    ∧ (handleNormalToggle f false).severity = f.severity
    ∧ (handleNormalToggle f b).isNormal = b
    ∧ (handleNormalToggle f b).systemName = f.systemName
    ∧ (handleNormalToggle f b).findings = f.findings
    ∧ (handleNormalToggle f b).notes = f.notes := by
  cases b <;> simp [handleNormalToggle]

/-- Claim C10: `sanitizeUser` is insensitive to the stored password hash
(two users differing only in `password` sanitize identically) and preserves
every other field, so the sanitized user carries no password data. -/
theorem sanitizeUser_removes_password (u : User) (p : String) :
    sanitizeUser { u with password := p } = sanitizeUser u
    ∧ (sanitizeUser u).id = u.id
    ∧ (sanitizeUser u).username = u.username
    ∧ (sanitizeUser u).email = u.email
    ∧ (sanitizeUser u).firstName = u.firstName
    ∧ (sanitizeUser u).lastName = u.lastName
    ∧ (sanitizeUser u).role = u.role
    ∧ (sanitizeUser u).isActive = u.isActive
    ∧ (sanitizeUser u).createdAt = u.createdAt
    ∧ (sanitizeUser u).updatedAt = u.updatedAt := by
  simp [sanitizeUser]

/-- Claim C4: a normal finding renders exactly its system's
`defaultNormalText` regardless of stray field values, and contributes no
entry to the abnormal-findings summary even if a severity is present. -/
theorem normal_finding_renders_default (cfg : ExamSystemConfig)
    (f : ExamFindingState) (fs : List (String × ExamFindingState))
    (h : f.isNormal = true) :
    sectionBody cfg f = cfg.defaultNormalText
    ∧ (findRecord fs cfg.name = some f → abnormalEntryOf fs cfg = none) := by
  constructor
  · simp [sectionBody, h]
  · intro hfind
    simp [abnormalEntryOf, hfind, h]

/-- Witness for C4: the normal skin finding with stray field values and a
stray severity renders the default normal text and yields no abnormal
summary entry. -/
theorem normal_finding_renders_default_witness :
    sectionBody skinSystem strayNormalFinding = skinSystem.defaultNormalText
    ∧ abnormalEntryOf [("skin", strayNormalFinding)] skinSystem = none := by
  have h := normal_finding_renders_default skinSystem strayNormalFinding
    [("skin", strayNormalFinding)] (by decide)
  exact ⟨h.1, h.2 (by decide)⟩

/-- Claim C1: the Objective block of the rendered report consists of exactly
one subsection (upper-cased display-name subheading plus body line) per
catalog system for which a finding record exists, in catalog order, and the
emitted systems are exactly those with a finding and appear in strictly
ascending `displayOrder`. -/
theorem objective_sections_iff_finding (st : ExamState) (clinic now : String) :
    (∃ pre post, generateReportLines st clinic now
        = pre ++ (objectivePass examSystemsConfig st.findings).1 ++ post)
    ∧ (objectivePass examSystemsConfig st.findings).1
        = (objectiveSubsections st.findings).flatMap
            (fun p => ["", p.1.displayName.toUpper, sectionBody p.1 p.2])
    ∧ (objectiveSubsections st.findings).map Prod.fst
        = examSystemsConfig.filter (fun cfg => (findRecord st.findings cfg.name).isSome)
    ∧ ((objectiveSubsections st.findings).map
        (fun p => p.1.displayOrder)).Pairwise (· < ·) := by
  refine ⟨⟨reportHeaderLines st clinic,
      reportMiddleLines st (objectivePass examSystemsConfig st.findings).2
        ++ ["Report generated: " ++ now, barLine], ?_⟩, ?_, ?_, ?_⟩
  · simp [generateReportLines, List.append_assoc]
  · simp [objectivePass_eq, objectiveSubsections]
  · simpa [objectiveSubsections] using filterMap_pairs_map_fst examSystemsConfig st.findings
  · have hsub : (((objectiveSubsections st.findings).map Prod.fst).map
        (fun cfg => cfg.displayOrder)).Sublist
        (examSystemsConfig.map (fun cfg => cfg.displayOrder)) :=
      List.Sublist.map _
        (by simpa [objectiveSubsections] using
          filterMap_pairs_sublist examSystemsConfig st.findings)
    have hpw := List.Pairwise.sublist hsub examSystemsConfig_displayOrder_sorted
    simpa [List.map_map, Function.comp] using hpw

/-- Claim C3: the Assessment section of the rendered report prints, when the
abnormal-findings summary is non-empty, a numbered list of exactly its
entries (one per catalog finding that is abnormal with a truthy severity, in
processing order) and otherwise the literal no-abnormalities sentence; a
severe cardiovascular finding contributes the literal entry
"Cardiovascular: Severe abnormality". -/
theorem assessment_section_numbered (st : ExamState) (clinic now : String) :
    (∃ pre post, generateReportLines st clinic now
        = pre ++ (["", "ASSESSMENT", dashLine]
            ++ assessmentLines (objectivePass examSystemsConfig st.findings).2) ++ post)
    ∧ (objectivePass examSystemsConfig st.findings).2
        = examSystemsConfig.filterMap (abnormalEntryOf st.findings)
    ∧ (∀ ab : List String,
        assessmentLines ab =
          if ab = [] then ["No significant abnormalities detected on physical examination."]
          else "Key abnormal findings:"
            :: ab.enum.map (fun p => "  " ++ toString (p.1 + 1) ++ ". " ++ p.2))
    ∧ (∀ f, findRecord st.findings "cardiovascular" = some f →
        f.isNormal = false → f.severity = some "Severe" →
        "Cardiovascular: Severe abnormality"
          ∈ (objectivePass examSystemsConfig st.findings).2) := by
  refine ⟨⟨reportHeaderLines st clinic ++ (objectivePass examSystemsConfig st.findings).1,
      ["", "PLAN", dashLine, jsOrStr st.planNotes "To be determined.", "", barLine]
        ++ ["Report generated: " ++ now, barLine], ?_⟩, ?_, ?_, ?_⟩
  · simp [generateReportLines, reportMiddleLines, List.append_assoc]
  · simp [objectivePass_eq]
  · intro ab
    cases ab <;> simp [assessmentLines]
  · intro f hf hn hs
    have hname : cardiovascularSystem.name = "cardiovascular" := rfl
    have h2 : abnormalEntryOf st.findings cardiovascularSystem
        = some "Cardiovascular: Severe abnormality" := by
      simp only [abnormalEntryOf, hname, hf, hn, hs]
      decide
    have hmem : cardiovascularSystem ∈ examSystemsConfig := by
      simp [examSystemsConfig]
    rw [objectivePass_eq examSystemsConfig st.findings]
    exact List.mem_filterMap.mpr ⟨cardiovascularSystem, hmem, h2⟩

/-- Witness for C3: in the exam state holding only the severe cardiovascular
finding, the abnormal-findings summary contains the literal entry. -/
theorem assessment_section_numbered_witness :
    "Cardiovascular: Severe abnormality"
      ∈ (objectivePass examSystemsConfig severeCardioState.findings).2 :=
  (assessment_section_numbered severeCardioState "KASEKETI VETERINARY CLINIC"
      "now").2.2.2 severeCardioFinding (by decide) (by decide) (by decide)

/-- Claim C7: all wall-clock non-determinism of the renderer is confined to
the single "Report generated" footer line: for a fixed exam state and clinic
name there is a timestamp-independent prefix such that every rendering is
that prefix followed by the timestamp line and the closing rule. -/
theorem report_nondeterminism_single_line (st : ExamState) (clinic : String) :
    ∃ pre : List String, ∀ now : String,
      generateReportLines st clinic now = pre ++ ["Report generated: " ++ now, barLine]
      ∧ generateReport st clinic now
          = String.intercalate "\n" (pre ++ ["Report generated: " ++ now, barLine]) := by
  refine ⟨reportHeaderLines st clinic
      ++ (objectivePass examSystemsConfig st.findings).1
      ++ reportMiddleLines st (objectivePass examSystemsConfig st.findings).2,
    fun now => ⟨?_, ?_⟩⟩
  · simp [generateReportLines, List.append_assoc]
  · simp [generateReport, generateReportLines, List.append_assoc]

/-- The source formatting of one field-value entry agrees pointwise with the
spec-style formatting rules, once the declared field definition is looked
up. -/
theorem formatFieldEntry_eq_claim (cfg : ExamSystemConfig) (fieldName : String)
    (v : JSValue) :
    formatFieldEntry cfg fieldName v =
      match cfg.fields.find? (fun fc => fc.name = fieldName) with
      | none => none
      | some fc => claimFormatValue fc v := by
  cases hfc : cfg.fields.find? (fun fc => fc.name = fieldName) with
  | none => simp [formatFieldEntry, hfc]
  | some fc =>
    simp only [formatFieldEntry, hfc]
    cases v with
    | undef => simp [claimFormatValue]
    | null => simp [claimFormatValue]
    | bool b => cases b <;> simp [claimFormatValue]
    | num n =>
      cases hu : fc.unit with
      | none => simp [claimFormatValue, JSValue.display, hu]
      | some u =>
        by_cases he : u = "" <;>
          simp [claimFormatValue, JSValue.display, hu, he, String.append_assoc]
    | str s =>
      by_cases hs : s = ""
      · simp [claimFormatValue, hs]
      · cases hu : fc.unit with
        | none => simp [claimFormatValue, JSValue.display, hs, hu]
        | some u =>
          by_cases he : u = "" <;>
            simp [claimFormatValue, JSValue.display, hs, hu, he, String.append_assoc]
    | arr xs => cases xs <;> simp [claimFormatValue]

/-- The detail lines the source builds for a finding are those of the
amended (map-entry-order) spec reading. -/
theorem detailLines_eq_amended (cfg : ExamSystemConfig) (f : ExamFindingState) :
    detailLines cfg f = amendedEntryOrderDetailLines cfg f := by
  unfold detailLines amendedEntryOrderDetailLines
  congr 1
  congr 1
  · cases hs : f.severity with
    | none => simp [strTruthy]
    | some s => by_cases h : s = "" <;> simp [strTruthy, hs, h]
  · refine List.filterMap_congr fun p _ => ?_
    rw [formatFieldEntry_eq_claim]
  · by_cases hn : f.notes = "" <;> simp [hn]

/-- Counterexample to claim C2 as stated: for the skin finding whose values
were recorded as `pruritus` then `lesions`, the source renders the detail
lines in map-entry order, not in the declared field order the claim
prescribes, so the two bodies differ; the rendered report line is the
map-entry-order one. -/
theorem abnormal_body_order_cex :
    sectionBody skinSystem entryOrderFinding = "Pruritus: Severe. Lesions Present: Yes."
    ∧ claimDeclaredOrderBody skinSystem entryOrderFinding
        = "Lesions Present: Yes. Pruritus: Severe."
    ∧ sectionBody skinSystem entryOrderFinding
        ≠ claimDeclaredOrderBody skinSystem entryOrderFinding
    ∧ (generateReportLines entryOrderState "KASEKETI VETERINARY CLINIC" "now").get? 25
        = some "Pruritus: Severe. Lesions Present: Yes." :=
  ⟨by decide, by decide, by decide, by decide⟩

/-- Claim C2 as amended: for an abnormal finding the rendered section body
follows the claimed formatting rules with the recognized recorded values
taken in map-entry (insertion) order rather than declared field order. -/
theorem abnormal_body_amended (cfg : ExamSystemConfig) (f : ExamFindingState)
    (h : f.isNormal = false) :
    sectionBody cfg f = amendedEntryOrderBody cfg f := by
  unfold sectionBody amendedEntryOrderBody
  rw [detailLines_eq_amended, h]
  cases hdl : amendedEntryOrderDetailLines cfg f <;> simp [hdl]

/-- Witness for the amended C2: the spec scenario finding (abnormal skin,
Moderate, lesions and pruritus recorded) renders per the amended rules. -/
theorem abnormal_body_amended_witness :
    scenarioSkinFinding.isNormal = false
    ∧ sectionBody skinSystem scenarioSkinFinding
        = amendedEntryOrderBody skinSystem scenarioSkinFinding :=
  ⟨rfl, abnormal_body_amended skinSystem scenarioSkinFinding rfl⟩

/-- Counterexample to claim C5 as stated: with every patient field unset the
Sex line renders the neuter status with the placeholder "Unknown", not
"Not specified", so not every patient field uses the "Not specified"
placeholder. -/
theorem patient_unset_placeholder_cex :
    (generateReportLines allUnsetState "KASEKETI VETERINARY CLINIC" "now").get? 10
        = some "Sex: Not specified (Unknown)"
    ∧ "Sex: Not specified (Unknown)" ≠ "Sex: Not specified (Not specified)" :=
  ⟨by decide, by decide⟩

/-- Claim C5 as amended: for an exam state whose patient fields are all
unset, every patient field of the Patient Information section renders the
placeholder "Not specified", except the neuter status inside the Sex line,
which renders "Unknown"; no failure occurs (the renderer is total). -/
theorem patient_unset_placeholders_amended (st : ExamState) (clinic now : String)
    (h : st.patient = {}) :
    ((generateReportLines st clinic now).drop 7).take 7
      = ["Patient Name: Not specified", "Species: Not specified",
         "Breed: Not specified", "Sex: Not specified (Unknown)",
         "Age: Not specified", "Weight: Not specified",
         "Client: Not specified"] := by
  obtain ⟨pat, d1, d2, ex, pc, pn, fnd, cs⟩ := st
  replace h : pat = {} := h
  subst h
  rfl

/-- Witness for the amended C5 at the all-defaults exam state. -/
theorem patient_unset_placeholders_amended_witness :
    allUnsetState.patient = ({} : PatientPartial)
    ∧ ((generateReportLines allUnsetState "KASEKETI VETERINARY CLINIC" "now").drop 7).take 7
        = ["Patient Name: Not specified", "Species: Not specified",
           "Breed: Not specified", "Sex: Not specified (Unknown)",
           "Age: Not specified", "Weight: Not specified",
           "Client: Not specified"] :=
  ⟨rfl, patient_unset_placeholders_amended allUnsetState
    "KASEKETI VETERINARY CLINIC" "now" rfl⟩

/-- Filtering an association list by a key predicate satisfied at `k` does
not change the lookup at `k`. -/
theorem findRecord_filter_key {α : Type} (l : List (String × α)) (P : String → Bool)
    (k : String) (hk : P k = true) :
    findRecord (l.filter (fun p => P p.1)) k = findRecord l k := by
  induction l with
  | nil => rfl
  | cons p rest ih =>
    obtain ⟨k', v⟩ := p
    by_cases h : k' = k
    · subst h
      simp [List.filter_cons, hk, findRecord]
    · cases hP : P k' <;> simp [List.filter_cons, findRecord, h, hP, ih]

/-- Mapping the values of an association list commutes with lookup. -/
theorem findRecord_map_val {α β : Type} (l : List (String × α)) (g : String → α → β)
    (k : String) :
    findRecord (l.map (fun p => (p.1, g p.1 p.2))) k = (findRecord l k).map (g k) := by
  induction l with
  | nil => rfl
  | cons p rest ih =>
    obtain ⟨k', v⟩ := p
    by_cases h : k' = k
    · subst h; simp [findRecord]
    · simp [findRecord, h, ih]

/-- Filtering by a predicate may be dropped under a `filterMap` that returns
`none` wherever the predicate fails. -/
theorem filterMap_filter_of_none {α β : Type} (g : α → Option β) (q : α → Bool)
    (l : List α) (h : ∀ a, q a = false → g a = none) :
    (l.filter q).filterMap g = l.filterMap g := by
  induction l with
  | nil => rfl
  | cons a rest ih =>
    cases hq : q a with
    | false => simp [List.filter_cons, hq, List.filterMap_cons, h a hq, ih]
    | true => simp [List.filter_cons, hq, List.filterMap_cons, ih]

/-- A field value whose name is not declared on the system contributes no
detail line. -/
theorem formatFieldEntry_none_of_unrecognized (cfg : ExamSystemConfig)
    (p : String × JSValue)
    (h : cfg.fields.any (fun fc => fc.name = p.1) = false) :
    formatFieldEntry cfg p.1 p.2 = none := by
  have hfind : cfg.fields.find? (fun fc => fc.name = p.1) = none := by
    rw [List.find?_eq_none]
    intro x hx hxe
    have hany : cfg.fields.any (fun fc => fc.name = p.1) = true :=
      List.any_eq_true.mpr ⟨x, hx, hxe⟩
    rw [h] at hany
    exact Bool.noConfusion hany
  simp [formatFieldEntry, hfind]

/-- Restricting a field-value map to the declared field names does not
change the detail lines. -/
theorem detailLines_restrictFields (cfg : ExamSystemConfig) (f : ExamFindingState) :
    detailLines cfg (restrictFields cfg f) = detailLines cfg f := by
  have hexp : detailLines cfg (restrictFields cfg f)
      = (if strTruthy f.severity then ["Severity: " ++ f.severity.getD ""] else [])
        ++ (f.findings.filter
              (fun q => cfg.fields.any (fun fc => fc.name = q.1))).filterMap
            (fun p => formatFieldEntry cfg p.1 p.2)
        ++ (if f.notes ≠ "" then ["Notes: " ++ f.notes] else []) := rfl
  rw [hexp,
    filterMap_filter_of_none _ _ _
      (fun a ha => formatFieldEntry_none_of_unrecognized cfg a ha)]
  rfl

/-- Restricting a field-value map to the declared field names does not
change the rendered section body. -/
theorem sectionBody_restrictFields (cfg : ExamSystemConfig) (f : ExamFindingState) :
    sectionBody cfg (restrictFields cfg f) = sectionBody cfg f := by
  have hn : (restrictFields cfg f).isNormal = f.isNormal := rfl
  unfold sectionBody
  rw [hn, detailLines_restrictFields]

/-- In a list of system configurations with pairwise distinct names, the
name-based search finds exactly the member carrying that name. -/
theorem find?_name_eq (l : List ExamSystemConfig) (c : ExamSystemConfig)
    (hnd : (l.map (fun x => x.name)).Nodup) (hmem : c ∈ l) :
    l.find? (fun x => x.name = c.name) = some c := by
  induction l with
  | nil => cases hmem
  | cons d rest ih =>
    rw [List.map_cons, List.nodup_cons] at hnd
    rcases List.mem_cons.mp hmem with rfl | hmem'
    · simp [List.find?_cons]
    · by_cases hd : d.name = c.name
      · exact absurd (by rw [hd]; exact List.mem_map.mpr ⟨c, hmem', rfl⟩) hnd.1
      · simp [List.find?_cons, hd, ih hnd.2 hmem']

/-- The thirteen catalog system names are pairwise distinct. -/
theorem examSystemsConfig_names_nodup :
    (examSystemsConfig.map (fun cfg => cfg.name)).Nodup := by decide

/-- The Objective pass depends on the findings map only through, per catalog
system, the normality flag, severity, and rendered body of the finding
found under the system's name. -/
theorem objectivePassAux_congr (catalog : List ExamSystemConfig)
    (fs₁ fs₂ : List (String × ExamFindingState)) (acc : List String × List String)
    (h : ∀ cfg ∈ catalog,
      (findRecord fs₁ cfg.name).map (fun f => (f.isNormal, f.severity, sectionBody cfg f))
        = (findRecord fs₂ cfg.name).map
            (fun f => (f.isNormal, f.severity, sectionBody cfg f))) :
    objectivePassAux catalog fs₁ acc = objectivePassAux catalog fs₂ acc := by
  induction catalog generalizing acc with
  | nil => rfl
  | cons cfg rest ih =>
    have hcfg := h cfg (List.mem_cons_self _ _)
    have hrest : ∀ c ∈ rest,
        (findRecord fs₁ c.name).map (fun f => (f.isNormal, f.severity, sectionBody c f))
          = (findRecord fs₂ c.name).map
              (fun f => (f.isNormal, f.severity, sectionBody c f)) :=
      fun c hc => h c (List.mem_cons_of_mem _ hc)
    cases h1 : findRecord fs₁ cfg.name with
    | none =>
      cases h2 : findRecord fs₂ cfg.name with
      | none =>
        simp only [objectivePassAux, h1, h2]
        exact ih _ hrest
      | some f₂ => rw [h1, h2] at hcfg; simp at hcfg
    | some f₁ =>
      cases h2 : findRecord fs₂ cfg.name with
      | none => rw [h1, h2] at hcfg; simp at hcfg
      | some f₂ =>
        rw [h1, h2] at hcfg
        have hcfg' : f₁.isNormal = f₂.isNormal ∧ f₁.severity = f₂.severity
            ∧ sectionBody cfg f₁ = sectionBody cfg f₂ := by simpa using hcfg
        obtain ⟨e1, e2, e3⟩ := hcfg'
        simp only [objectivePassAux, h1, h2, e1, e2, e3]
        exact ih _ hrest

/-- Claim C6: the renderer is insensitive to data-shape variance: dropping
every finding whose system is absent from the catalog, and every field
value whose name is not declared on its system, leaves the rendered report
byte-identical — orphaned findings and unrecognized field names contribute
nothing, and rendering is a total function of the exam state. -/
theorem renderer_tolerates_schema_variance (st : ExamState) (clinic now : String) :
    generateReportLines (pruneState st) clinic now
      = generateReportLines st clinic now := by
  have hview : ∀ cfg ∈ examSystemsConfig,
      (findRecord (pruneState st).findings cfg.name).map
          (fun f => (f.isNormal, f.severity, sectionBody cfg f))
        = (findRecord st.findings cfg.name).map
            (fun f => (f.isNormal, f.severity, sectionBody cfg f)) := by
    intro cfg hcfg
    have hP : (examSystemsConfig.any (fun c => c.name = cfg.name)) = true :=
      List.any_eq_true.mpr ⟨cfg, hcfg, by simp⟩
    have h1 : findRecord (pruneState st).findings cfg.name
        = (findRecord st.findings cfg.name).map (pruneFindingAt cfg.name) := by
      show findRecord ((st.findings.filter
          (fun p => examSystemsConfig.any (fun c => c.name = p.1))).map
            (fun p => (p.1, pruneFindingAt p.1 p.2))) cfg.name = _
      rw [findRecord_map_val,
        findRecord_filter_key st.findings
          (fun k => examSystemsConfig.any (fun c => c.name = k)) cfg.name hP]
    rw [h1]
    cases hfr : findRecord st.findings cfg.name with
    | none => rfl
    | some f =>
      have hfind : examSystemsConfig.find? (fun c => c.name = cfg.name) = some cfg :=
        find?_name_eq _ cfg examSystemsConfig_names_nodup hcfg
      have hprune : pruneFindingAt cfg.name f = restrictFields cfg f := by
        simp [pruneFindingAt, hfind]
      have hr1 : (restrictFields cfg f).isNormal = f.isNormal := rfl
      have hr2 : (restrictFields cfg f).severity = f.severity := rfl
      simp [hprune, hr1, hr2, sectionBody_restrictFields]
  have hop : objectivePass examSystemsConfig (pruneState st).findings
      = objectivePass examSystemsConfig st.findings :=
    objectivePassAux_congr _ _ _ _ hview
  simp only [generateReportLines]
  rw [hop]
  rfl

/-- The boolean completion filter of the new-exam page, in propositional
form: normal, or abnormal with a non-empty severity. -/
theorem completed_pred_iff (f : ExamFindingState) :
    (f.isNormal || strTruthy f.severity) = true ↔
      (f.isNormal = true
        ∨ (f.isNormal = false ∧ ∃ s, f.severity = some s ∧ s ≠ "")) := by
  cases hn : f.isNormal <;> cases hs : f.severity <;> simp [strTruthy, hn, hs]

/-- Unfolding `completedSystemsOf` over a cons cell. -/
theorem completedSystemsOf_cons (k' : String) (f' : ExamFindingState)
    (rest : List (String × ExamFindingState)) :
    completedSystemsOf ((k', f') :: rest)
      = if (f'.isNormal || strTruthy f'.severity) = true
        then k' :: completedSystemsOf rest
        else completedSystemsOf rest := by
  unfold completedSystemsOf
  rw [List.filter_cons]
  by_cases hp : (f'.isNormal || strTruthy f'.severity) = true
  · simp [hp]
  · simp [hp]

/-- Every derived completed system name is a key of the findings map. -/
theorem completedSystemsOf_subset_keys (fs : List (String × ExamFindingState)) :
    completedSystemsOf fs ⊆ fs.map Prod.fst := by
  intro x hx
  unfold completedSystemsOf at hx
  obtain ⟨p, hp, rfl⟩ := List.mem_map.mp hx
  exact List.mem_map.mpr ⟨p, List.mem_of_mem_filter hp, rfl⟩

/-- Claim C9: over a findings map with distinct keys, the derived
`completedSystems` view contains a system exactly when its finding record is
normal, or abnormal with a non-empty severity; the view is a pure function
of the current findings. -/
theorem completedSystems_mem_iff (fs : List (String × ExamFindingState))
    (k : String) (hnd : (fs.map Prod.fst).Nodup) :
    k ∈ completedSystemsOf fs ↔
      ∃ f, findRecord fs k = some f ∧
        (f.isNormal = true
          ∨ (f.isNormal = false ∧ ∃ s, f.severity = some s ∧ s ≠ "")) := by
  induction fs with
  | nil => simp [completedSystemsOf, findRecord]
  | cons p rest ih =>
    obtain ⟨k', f'⟩ := p
    rw [List.map_cons, List.nodup_cons] at hnd
    have ihr := ih hnd.2
    rw [completedSystemsOf_cons]
    by_cases hk : k' = k
    · subst hk
      constructor
      · intro hmem
        by_cases hp : (f'.isNormal || strTruthy f'.severity) = true
        · exact ⟨f', by simp [findRecord], (completed_pred_iff f').mp hp⟩
        · rw [if_neg hp] at hmem
          exact absurd (completedSystemsOf_subset_keys rest hmem) hnd.1
      · rintro ⟨f, hf, hP⟩
        have hff : f' = f := by simpa [findRecord] using hf
        subst hff
        rw [if_pos ((completed_pred_iff f').mpr hP)]
        exact List.mem_cons_self _ _
    · have hfr : findRecord ((k', f') :: rest) k = findRecord rest k := by
        simp [findRecord, hk]
      rw [hfr]
      by_cases hp : (f'.isNormal || strTruthy f'.severity) = true
      · rw [if_pos hp, List.mem_cons]
        constructor
        · rintro (rfl | hm)
          · exact absurd rfl hk
          · exact ihr.mp hm
        · intro hh
          exact Or.inr (ihr.mpr hh)
      · rw [if_neg hp]
        exact ihr

/-- Witness for C9: in the probe findings map, the normal general system is
complete, while the skin system — abnormal and documented with a field value
and notes but carrying no severity — is not. -/
theorem completedSystems_mem_iff_witness :
    "general" ∈ completedSystemsOf completedProbeFindings
    ∧ "skin" ∉ completedSystemsOf completedProbeFindings := by
  constructor
  · exact (completedSystems_mem_iff completedProbeFindings "general" (by decide)).mpr
      ⟨{ systemName := "general", isNormal := true }, by decide, Or.inl rfl⟩
  · intro hmem
    obtain ⟨f, hf, hP⟩ :=
      (completedSystems_mem_iff completedProbeFindings "skin" (by decide)).mp hmem
    have hfs : findRecord completedProbeFindings "skin"
        = some abnormalNoSeverityFinding := by decide
    rw [hfs] at hf
    have hfe : f = abnormalNoSeverityFinding := (Option.some.inj hf).symm
    subst hfe
    rcases hP with h | ⟨_, s, hs, _⟩
    · exact absurd h (by decide)
    · have hnone : abnormalNoSeverityFinding.severity = none := rfl
      rw [hnone] at hs
      exact Option.noConfusion hs

end VetClinic
